import Mathlib

/-
Verification of the tilt-stepper motion subsystem: the periodic state
machine, step pulse generator, home-sensor recalibration handler
(tilt_stepper_motor_control.c) and the TMC260 driver protocol engine
(TMC260.c).  Machine integers are modelled as Nat/Int with explicit
wrapping where the C types wrap; 32-bit float values are modelled as exact
rationals (every float literal used by the code, 3.14, 3.5, 0.5, is carried
exactly, and all value claims settled here are robust to float rounding).
-/

/-- Direction enum of tilt_stepper_motor_control.c (tilt_stepper_dirs). -/
inductive tilt_stepper_dirs
  | TILT_STEPPER_DIR_STOPPED
  | TILT_STEPPER_DIR_CW
  | TILT_STEPPER_DIR_CCW
deriving DecidableEq, Repr

export tilt_stepper_dirs (TILT_STEPPER_DIR_STOPPED TILT_STEPPER_DIR_CW TILT_STEPPER_DIR_CCW)

/-- State enum of tilt_stepper_motor_control.c (tilt_stepper_states). -/
inductive tilt_stepper_states
  | TILT_STEPPER_INITIALIZE
  | TILT_STEPPER_HOME
  | TILT_STEPPER_TILT_TABLE
  | TILT_STEPPER_TEST_CW
  | TILT_STEPPER_TEST_CCW
  | TILT_STEPPER_TEST_DELAY
  | TILT_STEPPER_ERROR
deriving DecidableEq, Repr

export tilt_stepper_states (TILT_STEPPER_INITIALIZE TILT_STEPPER_HOME
  TILT_STEPPER_TILT_TABLE TILT_STEPPER_TEST_CW TILT_STEPPER_TEST_CCW
  TILT_STEPPER_TEST_DELAY TILT_STEPPER_ERROR)

/-- Modelled from the spec: the mechanical constants micro_steps_per_rev,
stepper_gear_ratio_num, stepper_gear_ratio_den and TILT_STEPPER_TWO_PI are
declared in tilt_stepper_motor_profile.h / tilt_stepper_motor_control.h,
which are not part of the staged sources.  The spec describes them only as
fixed mechanical constants (sec. 3: micro_steps_per_revolution,
gear_ratio_num/den, 2*pi), so they are kept as parameters here. -/
structure TiltConsts where
  micro_steps_per_rev : ℚ
  stepper_gear_ratio_num : ℚ
  stepper_gear_ratio_den : ℚ
  TWO_PI : ℚ
deriving DecidableEq, Repr

/-- Two's-complement wrap of a signed 32-bit counter: what the int32_t
increment/decrement in tilt_stepper_motor_step does at the bounds. -/
def wrap32 (n : ℤ) : ℤ := (n + 2 ^ 31) % 2 ^ 32 - 2 ^ 31

/-- Truncation toward zero, the C cast (int32_t) applied to a float value. -/
def ratTrunc (q : ℚ) : ℤ := if 0 ≤ q then ⌊q⌋ else -⌊-q⌋

/-- The mutable module state of tilt_stepper_motor_control.c. -/
structure TiltState where
  ts_state : tilt_stepper_states
  ts_state_timer : ℕ
  last_dir : ℕ
  tilt_index : ℕ
  steps_from_home : ℤ
  current_step_dir : tilt_stepper_dirs
  current_pos_rad : ℚ
deriving DecidableEq, Repr

/-- The closed-form position recomputed on every step
(tilt_stepper_motor_step, line 555):
(((float)steps_from_home/(float)micro_steps_per_rev)
  * (stepper_gear_ratio_den / stepper_gear_ratio_num)) * TILT_STEPPER_TWO_PI. -/
def tilt_pos_of_steps (c : TiltConsts) (steps : ℤ) : ℚ :=
  (((steps : ℚ) / c.micro_steps_per_rev) *
    (c.stepper_gear_ratio_den / c.stepper_gear_ratio_num)) * c.TWO_PI

/-- The provisional step count the EXTI1 handler stores on a wrong-side
edge (lines 240 and 251): (int32_t)((3.14 * micro_steps_per_rev *
stepper_gear_ratio_num) / (stepper_gear_ratio_den * TILT_STEPPER_TWO_PI)). -/
def provisional_steps (c : TiltConsts) : ℤ :=
  ratTrunc ((3.14 * c.micro_steps_per_rev * c.stepper_gear_ratio_num) /
    (c.stepper_gear_ratio_den * c.TWO_PI))

/-- tilt_stepper_motor_state_change: reset the tick timer when reset_timer
is nonzero, then set the new state. -/
def tilt_stepper_motor_state_change (s : TiltState) (new_state : tilt_stepper_states)
    (reset_timer : ℕ) : TiltState :=
  let s1 := if reset_timer ≠ 0 then { s with ts_state_timer := 0 } else s
  { s1 with ts_state := new_state }

/-- tilt_stepper_motor_set_CW: record CW and drive the TMC260 DIR line. -/
def tilt_stepper_motor_set_CW (s : TiltState) : TiltState :=
  { s with current_step_dir := TILT_STEPPER_DIR_CW }

/-- tilt_stepper_motor_set_CCW: record CCW and drive the TMC260 DIR line. -/
def tilt_stepper_motor_set_CCW (s : TiltState) : TiltState :=
  { s with current_step_dir := TILT_STEPPER_DIR_CCW }

/-- TMC260_step toggles the step GPIO line PA2 (one step per call because
DEDGE is configured to step on both edges). -/
def TMC260_step_line (line : Bool) : Bool := !line

/-- Result of one tilt_stepper_motor_step call: the new module state, the
fact that TMC260_enable was invoked, and the toggled step line. -/
structure StepResult where
  state : TiltState
  enable_called : Bool
  step_line : Bool
deriving DecidableEq, Repr

/-- tilt_stepper_motor_step (lines 540-559): two independent ifs adjust
steps_from_home by direction, the position is recomputed from the counter,
then TMC260_enable() and TMC260_step() run unconditionally. -/
def tilt_stepper_motor_step (c : TiltConsts) (s : TiltState) (line : Bool) : StepResult :=
  let steps1 := if s.current_step_dir = TILT_STEPPER_DIR_CW
    then wrap32 (s.steps_from_home + 1) else s.steps_from_home
  let steps2 := if s.current_step_dir = TILT_STEPPER_DIR_CCW
    then wrap32 (steps1 - 1) else steps1
  let s2 := { s with steps_from_home := steps2, current_pos_rad := tilt_pos_of_steps c steps2 }
  { state := s2, enable_called := true, step_line := TMC260_step_line line }

/-- EXTI1_IRQHandler (lines 218-280), the home-flag edge interrupt.
pin_high is GPIO_ReadInputDataBit(GPIOC, GPIO_Pin_1) == Bit_SET; per the
sensor documentation in TMC260.c (TMC260_init_gpio: covered is low,
uncovered is high) a high pin reads uncovered.  After the position update,
a zero step count while homing advances the state machine to TEST_DELAY. -/
def EXTI1_IRQHandler (c : TiltConsts) (pin_high : Bool) (s : TiltState) : TiltState :=
  let s1 :=
    if pin_high then
      if s.current_step_dir = TILT_STEPPER_DIR_CW then
        { s with current_pos_rad := 0, steps_from_home := 0 }
      else
        { s with current_pos_rad := 3.14, steps_from_home := provisional_steps c }
    else
      if s.current_step_dir = TILT_STEPPER_DIR_CW then
        { s with current_pos_rad := 3.14, steps_from_home := provisional_steps c }
      else
        { s with current_pos_rad := 0, steps_from_home := 0 }
  if s1.steps_from_home = 0 then
    if s1.ts_state = TILT_STEPPER_HOME then
      tilt_stepper_motor_state_change { s1 with last_dir := 1 } TILT_STEPPER_TEST_DELAY 1
    else s1
  else s1

/-- Accumulated effect of one TIM5 (step timer) interrupt: module state,
the step line level, how many TMC260_step pulses were issued, and the
autoreload value written to the timer, if any. -/
structure Tim5Result where
  state : TiltState
  step_line : Bool
  steps_issued : ℕ
  autoreload : Option ℕ
deriving DecidableEq, Repr

/-- One tilt_stepper_motor_step call folded into a Tim5Result. -/
def tim5_do_step (c : TiltConsts) (a : Tim5Result) : Tim5Result :=
  let r := tilt_stepper_motor_step c a.state a.step_line
  { a with state := r.state, step_line := r.step_line, steps_issued := a.steps_issued + 1 }

/-- TIM5_IRQHandler (lines 293-334), the step timer tick.  The three ifs of
the source run in sequence; in TILT_TABLE the cursor is incremented first
(uint32 wrap), and the profile entry is consulted only under the
short-circuit bound check tilt_index < tilt_elements, so the table is never
read at or past its length.  The profile (stepper_profile, tilt_elements,
from tilt_stepper_motor_profile.h, not staged) is a parameter. -/
def TIM5_IRQHandler (c : TiltConsts) (profile : List ℕ) (s : TiltState)
    (line : Bool) : Tim5Result :=
  let a0 : Tim5Result := ⟨s, line, 0, none⟩
  let a1 := if s.ts_state = TILT_STEPPER_TEST_CW ∨ s.ts_state = TILT_STEPPER_TEST_CCW
    then tim5_do_step c a0 else a0
  let a2 := if a1.state.ts_state = TILT_STEPPER_HOME then tim5_do_step c a1 else a1
  if a2.state.ts_state = TILT_STEPPER_TILT_TABLE then
    let idx := (a2.state.tilt_index + 1) % 2 ^ 32
    let sidx := { a2.state with tilt_index := idx }
    if h : idx < profile.length then
      if 0 < profile[idx] then
        let a3 := tim5_do_step c { a2 with state := sidx }
        { a3 with autoreload := some profile[idx] }
      else
        { a2 with state := tilt_stepper_motor_state_change sidx TILT_STEPPER_TILT_TABLE 1 }
    else
      { a2 with state := tilt_stepper_motor_state_change sidx TILT_STEPPER_TILT_TABLE 1 }
  else a2

/-- The reload value the state machine writes into the step timer: the
homing cadence (HOME_STEP_FREQ_HZ), the default cadence
(DEFAULT_STEP_FREQ_HZ), or a motion-profile entry. -/
inductive Tim5Reload
  | reload_home
  | reload_default
  | reload_profile (n : ℕ)
deriving DecidableEq, Repr

/-- Effect of one TIM11 (state machine) interrupt. -/
structure Tim11Result where
  state : TiltState
  send_angle : Bool
  init_called : Bool
  status_requested : Bool
  disable_called : Bool
  reload : Option Tim5Reload
deriving DecidableEq, Repr

def tim11_mk (s : TiltState) (sa : Bool) : Tim11Result := ⟨s, sa, false, false, false, none⟩

/-- TIM1_TRG_COM_TIM11_IRQHandler (lines 344-502), the state machine tick.
The tick counter is incremented first; the over-rotation guard runs before
the switch in every state except HOME and INITIALIZE and forces HOME with a
timer reset; the switch then dispatches on the (possibly already updated)
state.  pin_high is the raw home-flag GPIO level (high = uncovered). -/
def TIM1_TRG_COM_TIM11_IRQHandler (profile : List ℕ)
    (pin_high : Bool) (s0 : TiltState) (send_angle0 : Bool) : Tim11Result :=
  let t1 := (s0.ts_state_timer + 1) % 2 ^ 32
  let sa := if t1 % 25 = 0 then (if send_angle0 = false then true else send_angle0)
    else send_angle0
  let s1 := { s0 with ts_state_timer := t1 }
  let s2 :=
    if s1.ts_state ≠ TILT_STEPPER_HOME ∧ s1.ts_state ≠ TILT_STEPPER_INITIALIZE then
      let sg1 := if s1.current_pos_rad > 3.5
        then tilt_stepper_motor_state_change s1 TILT_STEPPER_HOME 1 else s1
      if sg1.current_pos_rad < -0.5
        then tilt_stepper_motor_state_change sg1 TILT_STEPPER_HOME 1 else sg1
    else s1
  match s2.ts_state with
  | TILT_STEPPER_INITIALIZE =>
      { tim11_mk (tilt_stepper_motor_state_change s2 TILT_STEPPER_HOME 1) sa with
        init_called := true }
  | TILT_STEPPER_HOME =>
      if s2.ts_state_timer = 1 then
        let s3 :=
          if s2.steps_from_home = 0 then
            if pin_high then tilt_stepper_motor_set_CCW s2 else tilt_stepper_motor_set_CW s2
          else
            if s2.current_pos_rad > 0 then tilt_stepper_motor_set_CCW s2
            else tilt_stepper_motor_set_CW s2
        { tim11_mk s3 sa with reload := some Tim5Reload.reload_home }
      else tim11_mk s2 sa
  | TILT_STEPPER_TILT_TABLE =>
      if s2.ts_state_timer = 1 then
        let s3 := if s2.last_dir ≠ 0
          then tilt_stepper_motor_set_CW { s2 with last_dir := 0 }
          else tilt_stepper_motor_set_CCW { s2 with last_dir := 1 }
        let s4 := { s3 with tilt_index := 0 }
        { tim11_mk s4 sa with reload := some (Tim5Reload.reload_profile (profile.getD 0 0)) }
      else tim11_mk s2 sa
  | TILT_STEPPER_TEST_CW =>
      let s3 := if s2.ts_state_timer = 1 then tilt_stepper_motor_set_CW s2 else s2
      let rl := if s2.ts_state_timer = 1 then some Tim5Reload.reload_default else none
      if s2.ts_state_timer > 80000 then
        { tim11_mk (tilt_stepper_motor_state_change s3 TILT_STEPPER_TEST_CCW 1) sa with
          reload := rl, disable_called := true }
      else { tim11_mk s3 sa with reload := rl }
  | TILT_STEPPER_TEST_CCW =>
      let s3 := if s2.ts_state_timer = 1 then tilt_stepper_motor_set_CCW s2 else s2
      let rl := if s2.ts_state_timer = 1 then some Tim5Reload.reload_default else none
      if s2.ts_state_timer > 80000 then
        { tim11_mk (tilt_stepper_motor_state_change s3 TILT_STEPPER_TEST_CW 1) sa with
          reload := rl, disable_called := true }
      else { tim11_mk s3 sa with reload := rl }
  | TILT_STEPPER_TEST_DELAY =>
      let req := s2.ts_state_timer = 1
      if s2.ts_state_timer > 200 then
        { tim11_mk (tilt_stepper_motor_state_change s2 TILT_STEPPER_TILT_TABLE 1) sa with
          status_requested := req }
      else { tim11_mk s2 sa with status_requested := req }
  | TILT_STEPPER_ERROR => tim11_mk s2 sa

/-
TMC260.c: the driver protocol engine.  The bit-field shift/mask constants
live in TMC260.h, which is not among the staged sources.
-/

/-- Modelled from the spec: the TMC260.h shift/mask constants for the five
control registers and the status reply, absent from the staged sources.
Values follow the TMC260 datagram layout the spec describes (20-bit
registers, shift+mask per field, RDSEL selecting the status payload); they
reproduce every register value left in TMC260.c comments (0xE0000 for an
all-zero DRVCONF, 0xEF000 default, 0x94552/0x901B4 CHOPCONF, 0xA8202
SMARTEN, 0xD001F SGCSCONF). -/
def TMC260_DRVCTRL_SDON_INIT : ℕ := 0x00000

def TMC260_DRVCTRL_SDON_INTPOL_SHIFT : ℕ := 9
def TMC260_DRVCTRL_SDON_INTPOL_MASK : ℕ := 0x200
def TMC260_DRVCTRL_SDON_DEDGE_SHIFT : ℕ := 8
def TMC260_DRVCTRL_SDON_DEDGE_MASK : ℕ := 0x100
def TMC260_DRVCTRL_SDON_MRES_SHIFT : ℕ := 0
def TMC260_DRVCTRL_SDON_MRES_MASK : ℕ := 0xF

def TMC260_DRVCTRL_SDOFF_INIT : ℕ := 0x00000
def TMC260_DRVCTRL_SDOFF_PHA_DIR_SHIFT : ℕ := 17
def TMC260_DRVCTRL_SDOFF_PHA_DIR_MASK : ℕ := 0x20000
def TMC260_DRVCTRL_SDOFF_PHA_CUR_SHIFT : ℕ := 9
def TMC260_DRVCTRL_SDOFF_PHA_CUR_MASK : ℕ := 0x1FE00
def TMC260_DRVCTRL_SDOFF_PHB_DIR_SHIFT : ℕ := 8
def TMC260_DRVCTRL_SDOFF_PHB_DIR_MASK : ℕ := 0x100
def TMC260_DRVCTRL_SDOFF_PHB_CUR_SHIFT : ℕ := 0
def TMC260_DRVCTRL_SDOFF_PHB_CUR_MASK : ℕ := 0xFF

def TMC260_CHOPCONF_INIT : ℕ := 0x80000
def TMC260_CHOPCONF_TBL_SHIFT : ℕ := 15
def TMC260_CHOPCONF_TBL_MASK : ℕ := 0x18000
def TMC260_CHOPCONF_CHM_SHIFT : ℕ := 14
def TMC260_CHOPCONF_CHM_MASK : ℕ := 0x4000
def TMC260_CHOPCONF_RNDTF_SHIFT : ℕ := 13
def TMC260_CHOPCONF_RNDTF_MASK : ℕ := 0x2000
def TMC260_CHOPCONF_HDEC_SHIFT : ℕ := 11
def TMC260_CHOPCONF_HDEC_MASK : ℕ := 0x1800
def TMC260_CHOPCONF_HEND_SHIFT : ℕ := 7
def TMC260_CHOPCONF_HEND_MASK : ℕ := 0x780
def TMC260_CHOPCONF_HSTRT_SHIFT : ℕ := 4
def TMC260_CHOPCONF_HSTRT_MASK : ℕ := 0x70
def TMC260_CHOPCONF_TOFF_SHIFT : ℕ := 0
def TMC260_CHOPCONF_TOFF_MASK : ℕ := 0xF

def TMC260_SMARTEN_INIT : ℕ := 0xA0000
def TMC260_SMARTEN_SEIMIN_SHIFT : ℕ := 15
def TMC260_SMARTEN_SEIMIN_MASK : ℕ := 0x8000
def TMC260_SMARTEN_SEDN_SHIFT : ℕ := 13
def TMC260_SMARTEN_SEDN_MASK : ℕ := 0x6000
def TMC260_SMARTEN_SEMAX_SHIFT : ℕ := 8
def TMC260_SMARTEN_SEMAX_MASK : ℕ := 0xF00
def TMC260_SMARTEN_SEUP_SHIFT : ℕ := 5
def TMC260_SMARTEN_SEUP_MASK : ℕ := 0x60
def TMC260_SMARTEN_SEMIN_SHIFT : ℕ := 0
def TMC260_SMARTEN_SEMIN_MASK : ℕ := 0xF

def TMC260_SGCSCONF_INIT : ℕ := 0xC0000
def TMC260_SGCSCONF_SFILT_SHIFT : ℕ := 16
def TMC260_SGCSCONF_SFILT_MASK : ℕ := 0x10000
def TMC260_SGCSCONF_SGT_SHIFT : ℕ := 8
def TMC260_SGCSCONF_SGT_MASK : ℕ := 0x7F00
def TMC260_SGCSCONF_CS_SHIFT : ℕ := 0
def TMC260_SGCSCONF_CS_MASK : ℕ := 0x1F

def TMC260_DRVCONF_INIT : ℕ := 0xE0000
def TMC260_DRVCONF_TST_SHIFT : ℕ := 16
def TMC260_DRVCONF_TST_MASK : ℕ := 0x10000
def TMC260_DRVCONF_SLPH_SHIFT : ℕ := 14
def TMC260_DRVCONF_SLPH_MASK : ℕ := 0xC000
def TMC260_DRVCONF_SLPL_SHIFT : ℕ := 12
def TMC260_DRVCONF_SLPL_MASK : ℕ := 0x3000
def TMC260_DRVCONF_DISS2G_SHIFT : ℕ := 10
def TMC260_DRVCONF_DISS2G_MASK : ℕ := 0x400
def TMC260_DRVCONF_TS2G_SHIFT : ℕ := 8
def TMC260_DRVCONF_TS2G_MASK : ℕ := 0x300
def TMC260_DRVCONF_SDOFF_SHIFT : ℕ := 7
def TMC260_DRVCONF_SDOFF_MASK : ℕ := 0x80
def TMC260_DRVCONF_VSENSE_SHIFT : ℕ := 6
def TMC260_DRVCONF_VSENSE_MASK : ℕ := 0x40
def TMC260_DRVCONF_RDSEL_SHIFT : ℕ := 4
def TMC260_DRVCONF_RDSEL_MASK : ℕ := 0x30

def TMC260_STATUS_STST_SHIFT : ℕ := 7
def TMC260_STATUS_STST_MASK : ℕ := 0x80
def TMC260_STATUS_OLB_SHIFT : ℕ := 6
def TMC260_STATUS_OLB_MASK : ℕ := 0x40
def TMC260_STATUS_OLA_SHIFT : ℕ := 5
def TMC260_STATUS_OLA_MASK : ℕ := 0x20
def TMC260_STATUS_S2GB_SHIFT : ℕ := 4
def TMC260_STATUS_S2GB_MASK : ℕ := 0x10
def TMC260_STATUS_S2GA_SHIFT : ℕ := 3
def TMC260_STATUS_S2GA_MASK : ℕ := 0x8
def TMC260_STATUS_OTPW_SHIFT : ℕ := 2
def TMC260_STATUS_OTPW_MASK : ℕ := 0x4
def TMC260_STATUS_OT_SHIFT : ℕ := 1
def TMC260_STATUS_OT_MASK : ℕ := 0x2
def TMC260_STATUS_SG_SHIFT : ℕ := 0
def TMC260_STATUS_SG_MASK : ℕ := 0x1
def TMC260_STATUS_MSTEP_SHIFT : ℕ := 10
def TMC260_STATUS_MSTEP_MASK : ℕ := 0xFFC00
def TMC260_STATUS_STALLGUARD_SHIFT : ℕ := 10
def TMC260_STATUS_STALLGUARD_MASK : ℕ := 0xFFC00
def TMC260_STATUS_CUR_SG_SHIFT : ℕ := 15
def TMC260_STATUS_CUR_SG_MASK : ℕ := 0xF8000
def TMC260_STATUS_CUR_SE_SHIFT : ℕ := 10
def TMC260_STATUS_CUR_SE_MASK : ℕ := 0x7C00

/-- Return codes of the TMC260.c register functions. -/
inductive TMC260Ret
  | TMC260_SUCCESS
  | TMC260_ERROR_INVALID_INPUT
deriving DecidableEq, Repr

export TMC260Ret (TMC260_SUCCESS TMC260_ERROR_INVALID_INPUT)

/-- The five shadow register globals of TMC260.c
(TMC260_DRVCTRL_regval .. TMC260_DRVCONF_regval). -/
structure TMC260Regs where
  DRVCTRL_regval : ℕ
  CHOPCONF_regval : ℕ
  SMARTEN_regval : ℕ
  SGCSCONF_regval : ℕ
  DRVCONF_regval : ℕ
deriving DecidableEq, Repr

/-- Result of a TMC260 register-write function: return code, shadow
registers afterwards, and the datagrams handed to
TMC260_spi_write_datagram (in order). -/
structure TMC260SendResult where
  ret : TMC260Ret
  regs : TMC260Regs
  sent : List ℕ
deriving DecidableEq, Repr

/-- TMC260_send_drvctrl_sdon (lines 598-627): validates the two 1-bit
flags, packs, transmits, updates the shadow. -/
def TMC260_send_drvctrl_sdon (regs : TMC260Regs) (intpol dedge mres : ℕ) : TMC260SendResult :=
  if intpol > 1 ∨ dedge > 1 then ⟨TMC260_ERROR_INVALID_INPUT, regs, []⟩
  else
    let regval := TMC260_DRVCTRL_SDON_INIT
      ||| ((intpol <<< TMC260_DRVCTRL_SDON_INTPOL_SHIFT) &&& TMC260_DRVCTRL_SDON_INTPOL_MASK)
      ||| ((dedge <<< TMC260_DRVCTRL_SDON_DEDGE_SHIFT) &&& TMC260_DRVCTRL_SDON_DEDGE_MASK)
      ||| ((mres <<< TMC260_DRVCTRL_SDON_MRES_SHIFT) &&& TMC260_DRVCTRL_SDON_MRES_MASK)
    ⟨TMC260_SUCCESS, { regs with DRVCTRL_regval := regval }, [regval]⟩

/-- TMC260_send_drvctrl_sdoff (lines 559-587): validates the two 1-bit
phase direction flags, packs, transmits, updates the shadow. -/
def TMC260_send_drvctrl_sdoff (regs : TMC260Regs) (ph_a_dir ph_a_cur ph_b_dir ph_b_cur : ℕ) :
    TMC260SendResult :=
  if ph_a_dir > 1 ∨ ph_b_dir > 1 then ⟨TMC260_ERROR_INVALID_INPUT, regs, []⟩
  else
    let regval := TMC260_DRVCTRL_SDOFF_INIT
      ||| ((ph_a_dir <<< TMC260_DRVCTRL_SDOFF_PHA_DIR_SHIFT) &&& TMC260_DRVCTRL_SDOFF_PHA_DIR_MASK)
      ||| ((ph_a_cur <<< TMC260_DRVCTRL_SDOFF_PHA_CUR_SHIFT) &&& TMC260_DRVCTRL_SDOFF_PHA_CUR_MASK)
      ||| ((ph_b_dir <<< TMC260_DRVCTRL_SDOFF_PHB_DIR_SHIFT) &&& TMC260_DRVCTRL_SDOFF_PHB_DIR_MASK)
      ||| ((ph_b_cur <<< TMC260_DRVCTRL_SDOFF_PHB_CUR_SHIFT) &&& TMC260_DRVCTRL_SDOFF_PHB_CUR_MASK)
    ⟨TMC260_SUCCESS, { regs with DRVCTRL_regval := regval }, [regval]⟩

/-- TMC260_send_chopconf (lines 643-668): no input validation (the source
carries a todo asking whether parameters should be checked); every field is
masked to its width, the datagram is always transmitted, the shadow always
updated. -/
def TMC260_send_chopconf (regs : TMC260Regs) (tbl chm rndtf hdec hend hstrt toff : ℕ) :
    TMC260SendResult :=
  let regval := TMC260_CHOPCONF_INIT
    ||| ((tbl <<< TMC260_CHOPCONF_TBL_SHIFT) &&& TMC260_CHOPCONF_TBL_MASK)
    ||| ((chm <<< TMC260_CHOPCONF_CHM_SHIFT) &&& TMC260_CHOPCONF_CHM_MASK)
    ||| ((rndtf <<< TMC260_CHOPCONF_RNDTF_SHIFT) &&& TMC260_CHOPCONF_RNDTF_MASK)
    ||| ((hdec <<< TMC260_CHOPCONF_HDEC_SHIFT) &&& TMC260_CHOPCONF_HDEC_MASK)
    ||| ((hend <<< TMC260_CHOPCONF_HEND_SHIFT) &&& TMC260_CHOPCONF_HEND_MASK)
    ||| ((hstrt <<< TMC260_CHOPCONF_HSTRT_SHIFT) &&& TMC260_CHOPCONF_HSTRT_MASK)
    ||| ((toff <<< TMC260_CHOPCONF_TOFF_SHIFT) &&& TMC260_CHOPCONF_TOFF_MASK)
  ⟨TMC260_SUCCESS, { regs with CHOPCONF_regval := regval }, [regval]⟩

/-- TMC260_send_smarten (lines 681-701): no validation, always writes. -/
def TMC260_send_smarten (regs : TMC260Regs) (seimin sedn semax seup semin : ℕ) :
    TMC260SendResult :=
  let regval := TMC260_SMARTEN_INIT
    ||| ((seimin <<< TMC260_SMARTEN_SEIMIN_SHIFT) &&& TMC260_SMARTEN_SEIMIN_MASK)
    ||| ((sedn <<< TMC260_SMARTEN_SEDN_SHIFT) &&& TMC260_SMARTEN_SEDN_MASK)
    ||| ((semax <<< TMC260_SMARTEN_SEMAX_SHIFT) &&& TMC260_SMARTEN_SEMAX_MASK)
    ||| ((seup <<< TMC260_SMARTEN_SEUP_SHIFT) &&& TMC260_SMARTEN_SEUP_MASK)
    ||| ((semin <<< TMC260_SMARTEN_SEMIN_SHIFT) &&& TMC260_SMARTEN_SEMIN_MASK)
  ⟨TMC260_SUCCESS, { regs with SMARTEN_regval := regval }, [regval]⟩

/-- TMC260_send_sgcsconf (lines 713-730): no validation, always writes. -/
def TMC260_send_sgcsconf (regs : TMC260Regs) (sfilt sgt cs : ℕ) : TMC260SendResult :=
  let regval := TMC260_SGCSCONF_INIT
    ||| ((sfilt <<< TMC260_SGCSCONF_SFILT_SHIFT) &&& TMC260_SGCSCONF_SFILT_MASK)
    ||| ((sgt <<< TMC260_SGCSCONF_SGT_SHIFT) &&& TMC260_SGCSCONF_SGT_MASK)
    ||| ((cs <<< TMC260_SGCSCONF_CS_SHIFT) &&& TMC260_SGCSCONF_CS_MASK)
  ⟨TMC260_SUCCESS, { regs with SGCSCONF_regval := regval }, [regval]⟩

/-- TMC260_send_drvconf (lines 753-776): no validation, always writes. -/
def TMC260_send_drvconf (regs : TMC260Regs) (tst slph slpl diss2g ts2g sdoff vsense rdsel : ℕ) :
    TMC260SendResult :=
  let regval := TMC260_DRVCONF_INIT
    ||| ((tst <<< TMC260_DRVCONF_TST_SHIFT) &&& TMC260_DRVCONF_TST_MASK)
    ||| ((slph <<< TMC260_DRVCONF_SLPH_SHIFT) &&& TMC260_DRVCONF_SLPH_MASK)
    ||| ((slpl <<< TMC260_DRVCONF_SLPL_SHIFT) &&& TMC260_DRVCONF_SLPL_MASK)
    ||| ((diss2g <<< TMC260_DRVCONF_DISS2G_SHIFT) &&& TMC260_DRVCONF_DISS2G_MASK)
    ||| ((ts2g <<< TMC260_DRVCONF_TS2G_SHIFT) &&& TMC260_DRVCONF_TS2G_MASK)
    ||| ((sdoff <<< TMC260_DRVCONF_SDOFF_SHIFT) &&& TMC260_DRVCONF_SDOFF_MASK)
    ||| ((vsense <<< TMC260_DRVCONF_VSENSE_SHIFT) &&& TMC260_DRVCONF_VSENSE_MASK)
    ||| ((rdsel <<< TMC260_DRVCONF_RDSEL_SHIFT) &&& TMC260_DRVCONF_RDSEL_MASK)
  ⟨TMC260_SUCCESS, { regs with DRVCONF_regval := regval }, [regval]⟩

/-- tmc260_status_types: which payload RDSEL selects (TMC260.h documents
0x00 microstep position, 0x01 stallGuard2, 0x02 stallGuard2 + current). -/
inductive tmc260_status_types
  | TMC260_STATUS_POSITION
  | TMC260_STATUS_STALLGUARD
  | TMC260_STATUS_CURRENT
deriving DecidableEq, Repr

export tmc260_status_types (TMC260_STATUS_POSITION TMC260_STATUS_STALLGUARD TMC260_STATUS_CURRENT)

/-- The numeric value of a status type, as written into RDSEL. -/
def tmc260_status_types.toNat : tmc260_status_types → ℕ
  | TMC260_STATUS_POSITION => 0
  | TMC260_STATUS_STALLGUARD => 1
  | TMC260_STATUS_CURRENT => 2

/-- tmc260_status_struct of TMC260.h as filled by TMC260_spi_read_status. -/
structure tmc260_status_struct where
  status_type : tmc260_status_types
  position : ℕ
  stall_guard : ℕ
  current : ℕ
  status_byte : ℕ
  STST : ℕ
  OLB : ℕ
  OLA : ℕ
  S2GB : ℕ
  S2GA : ℕ
  OTPW : ℕ
  OT : ℕ
  SG : ℕ
deriving DecidableEq, Repr

/-- Assembly of the 20-bit reply in TMC260_spi_read_write_datagram
(lines 469-476): the three reply bytes are packed MSB-first into the top of
a 32-bit word and shifted down 12. -/
def TMC260_assemble_read (rb1 rb2 rb3 : ℕ) : ℕ :=
  ((((rb1 &&& 0xFF) <<< 24) &&& 0xFF000000)
    ||| (((rb2 &&& 0xFF) <<< 16) &&& 0x00FF0000)
    ||| (((rb3 &&& 0xFF) <<< 8) &&& 0x0000FF00)) >>> 12

/-- Result of TMC260_spi_read_status: return code, shadow registers, the
datagrams written on the SPI bus (in order), and the decoded status. -/
structure TMC260ReadStatusResult where
  ret : TMC260Ret
  regs : TMC260Regs
  sent : List ℕ
  status : tmc260_status_struct
deriving DecidableEq, Repr

/-- TMC260_spi_read_status (lines 363-425).  A zero DRVCONF shadow is first
replaced by the default 0xEF000; RDSEL is cleared and set to the requested
type; the new DRVCONF value is written once with the reply discarded and
once more with the reply captured (rb1 rb2 rb3 are the three bytes the chip
returns on the second exchange); the reply is decoded into the shared fault
bits plus the payload of the requested kind, the other payload fields set
to zero. -/
def TMC260_spi_read_status (regs : TMC260Regs) (status_type : tmc260_status_types)
    (rb1 rb2 rb3 : ℕ) : TMC260ReadStatusResult :=
  let d0 := if regs.DRVCONF_regval = 0 then 0xEF000 else regs.DRVCONF_regval
  let d1 := d0 &&& (0xFFFFFFFF ^^^ TMC260_DRVCONF_RDSEL_MASK)
  let d2 := d1 ||| ((status_type.toNat <<< TMC260_DRVCONF_RDSEL_SHIFT) &&& TMC260_DRVCONF_RDSEL_MASK)
  let rd := TMC260_assemble_read rb1 rb2 rb3
  let base : tmc260_status_struct :=
    { status_type := status_type
      position := 0
      stall_guard := 0
      current := 0
      status_byte := rd &&& 0xff
      STST := (rd &&& TMC260_STATUS_STST_MASK) >>> TMC260_STATUS_STST_SHIFT
      OLB := (rd &&& TMC260_STATUS_OLB_MASK) >>> TMC260_STATUS_OLB_SHIFT
      OLA := (rd &&& TMC260_STATUS_OLA_MASK) >>> TMC260_STATUS_OLA_SHIFT
      S2GB := (rd &&& TMC260_STATUS_S2GB_MASK) >>> TMC260_STATUS_S2GB_SHIFT
      S2GA := (rd &&& TMC260_STATUS_S2GA_MASK) >>> TMC260_STATUS_S2GA_SHIFT
      OTPW := (rd &&& TMC260_STATUS_OTPW_MASK) >>> TMC260_STATUS_OTPW_SHIFT
      OT := (rd &&& TMC260_STATUS_OT_MASK) >>> TMC260_STATUS_OT_SHIFT
      SG := (rd &&& TMC260_STATUS_SG_MASK) >>> TMC260_STATUS_SG_SHIFT }
  let st :=
    match status_type with
    | TMC260_STATUS_POSITION =>
        { base with
          position := (rd &&& TMC260_STATUS_MSTEP_MASK) >>> TMC260_STATUS_MSTEP_SHIFT
          stall_guard := 0
          current := 0 }
    | TMC260_STATUS_STALLGUARD =>
        { base with
          position := 0
          stall_guard := (rd &&& TMC260_STATUS_STALLGUARD_MASK) >>> TMC260_STATUS_STALLGUARD_SHIFT
          current := 0 }
    | TMC260_STATUS_CURRENT =>
        { base with
          position := 0
          stall_guard := (rd &&& TMC260_STATUS_CUR_SG_MASK) >>> TMC260_STATUS_CUR_SG_SHIFT
          current := (rd &&& TMC260_STATUS_CUR_SE_MASK) >>> TMC260_STATUS_CUR_SE_SHIFT }
  ⟨TMC260_SUCCESS, { regs with DRVCONF_regval := d2 }, [d2, d2], st⟩

/-- The RDSEL sub-field of a DRVCONF register value. -/
def rdsel_of (v : ℕ) : ℕ := (v >>> TMC260_DRVCONF_RDSEL_SHIFT) &&& 0x3

/-
Concrete instances used by witnesses and counterexamples.
-/

/-- Modelled from the spec: representative mechanical constants.  The
staged sources configure 64-fold microstepping (MICROSTEP_CONFIG_64 in
TMC260_init_config), so with a standard 200-full-step motor
micro_steps_per_rev is 12800; a direct drive (gear ratio 1/1) and the
usual single-float value of two pi are taken.  The parametric theorems
below do not depend on these numbers. -/
def demoConsts : TiltConsts := ⟨12800, 1, 1, 6.2831853⟩

/-- A homing state at the reference position with no commanded direction
(the module's reset values of ts_state_timer, last_dir, tilt_index,
steps_from_home, current_step_dir and current_pos_rad). -/
def s_home0 : TiltState :=
  ⟨TILT_STEPPER_HOME, 0, 0, 0, 0, TILT_STEPPER_DIR_STOPPED, 0⟩

/-- A homing state moving CW at the reference position. -/
def s_cw_home : TiltState :=
  ⟨TILT_STEPPER_HOME, 0, 0, 0, 0, TILT_STEPPER_DIR_CW, 0⟩

/-- A state whose step counter sits at the upper int32 bound. -/
def s_max : TiltState :=
  ⟨TILT_STEPPER_HOME, 0, 0, 0, 2 ^ 31 - 1, TILT_STEPPER_DIR_CW, 0⟩

/-- A small CW state used to witness the exact +1 increment. -/
def s_five : TiltState :=
  ⟨TILT_STEPPER_HOME, 0, 0, 0, 5, TILT_STEPPER_DIR_CW, 0⟩

/-- The state after a wrong-side home edge from s_home0: the sensor edge
fires with the pin high while no direction is commanded. -/
def exti_wrong_side_state : TiltState := EXTI1_IRQHandler demoConsts true s_home0

/-- A TiltSweep state with the cursor on the last entry of a 5-entry
profile. -/
def s_sweep_end : TiltState :=
  ⟨TILT_STEPPER_TILT_TABLE, 7, 0, 4, 0, TILT_STEPPER_DIR_CW, 1⟩

/-- A TiltSweep state whose position has been driven to 3.6 rad. -/
def s_over : TiltState :=
  ⟨TILT_STEPPER_TILT_TABLE, 41, 0, 2, 100, TILT_STEPPER_DIR_CW, 3.6⟩

/-- The module's boot state: phase INITIALIZE, everything zeroed. -/
def s_init0 : TiltState :=
  ⟨TILT_STEPPER_INITIALIZE, 0, 0, 0, 0, TILT_STEPPER_DIR_STOPPED, 0⟩

/-- The reset value of the five shadow registers (all zero until written). -/
def regs0 : TMC260Regs := ⟨0, 0, 0, 0, 0⟩

/-- A shadow set holding the all-zero-field DRVCONF value 0xE0000. -/
def regsE : TMC260Regs := ⟨1, 2, 3, 4, 0xE0000⟩

/-- The genuine-crossing combination the EXTI1 handler actually resets on:
direction CW with the pin high (per the sensor doc in TMC260.c, high means
uncovered), or direction not CW with the pin low (covered). -/
def exti_reset_combo (pin : Bool) (d : tilt_stepper_dirs) : Prop :=
  (d = TILT_STEPPER_DIR_CW ∧ pin = true) ∨ (d ≠ TILT_STEPPER_DIR_CW ∧ pin = false)

instance (pin : Bool) (d : tilt_stepper_dirs) : Decidable (exti_reset_combo pin d) := by
  unfold exti_reset_combo
  infer_instance

lemma provisional_steps_demo : provisional_steps demoConsts = 6396 := by
  norm_num [provisional_steps, ratTrunc, demoConsts]

lemma tilt_pos_demo_6396 :
    tilt_pos_of_steps demoConsts 6396 = 100468132947 / 32000000000 := by
  norm_num [tilt_pos_of_steps, demoConsts]

lemma tilt_pos_of_steps_zero (c : TiltConsts) : tilt_pos_of_steps c 0 = 0 := by
  simp [tilt_pos_of_steps]

lemma exti_wrong_side_state_eq :
    exti_wrong_side_state =
      ⟨TILT_STEPPER_HOME, 0, 0, 0, 6396, TILT_STEPPER_DIR_STOPPED, 3.14⟩ := by
  simp [exti_wrong_side_state, EXTI1_IRQHandler, s_home0, provisional_steps_demo]

lemma wrap32_eq_of (n : ℤ) (h1 : -(2 ^ 31) ≤ n) (h2 : n < 2 ^ 31) : wrap32 n = n := by
  unfold wrap32
  omega


/-- The EXTI1 handler's effect on the position state: zero on the reset
combination, the provisional values otherwise; the commanded direction is
never touched. -/
lemma EXTI1_effect (c : TiltConsts) (pin : Bool) (s : TiltState) :
    (EXTI1_IRQHandler c pin s).steps_from_home =
      (if exti_reset_combo pin s.current_step_dir then 0 else provisional_steps c) ∧
    (EXTI1_IRQHandler c pin s).current_pos_rad =
      (if exti_reset_combo pin s.current_step_dir then 0 else 3.14) ∧
    (EXTI1_IRQHandler c pin s).current_step_dir = s.current_step_dir := by
  by_cases hd : s.current_step_dir = TILT_STEPPER_DIR_CW <;> cases pin <;>
    simp [EXTI1_IRQHandler, exti_reset_combo, hd, tilt_stepper_motor_state_change] <;>
    (try split) <;> (try split) <;> simp_all

/-- C1 counterexample: with direction CW and the sensor level reading
covered (pin low, per TMC260.c: covered is low), the handler does not
reset the position to zero as the claim requires; it stores the
provisional 3.14 rad and the matching nonzero step count. -/
theorem C1_counterexample :
    (EXTI1_IRQHandler demoConsts false s_cw_home).current_pos_rad = 3.14 ∧
    (EXTI1_IRQHandler demoConsts false s_cw_home).steps_from_home = 6396 ∧
    ¬ ((EXTI1_IRQHandler demoConsts false s_cw_home).steps_from_home = 0 ∧
       (EXTI1_IRQHandler demoConsts false s_cw_home).current_pos_rad = 0) := by
  simp [EXTI1_IRQHandler, s_cw_home, provisional_steps_demo]

/-- C1 (amended): for every sensor-edge event the handler resets
steps_from_home and position_rad to zero exactly when (direction is CW and
the level reads uncovered = high) or (direction is not CW, i.e. CCW or
Stopped, and the level reads covered = low); for every other pair it sets
the provisional 3.14 rad and the corresponding nonzero step count. -/
theorem C1_amended (c : TiltConsts) (pin : Bool) (s : TiltState)
    (hp : 0 < provisional_steps c) :
    (((EXTI1_IRQHandler c pin s).steps_from_home = 0 ∧
      (EXTI1_IRQHandler c pin s).current_pos_rad = 0) ↔
        exti_reset_combo pin s.current_step_dir) ∧
    (¬ exti_reset_combo pin s.current_step_dir →
      (EXTI1_IRQHandler c pin s).current_pos_rad = 3.14 ∧
      (EXTI1_IRQHandler c pin s).steps_from_home = provisional_steps c ∧
      (EXTI1_IRQHandler c pin s).steps_from_home ≠ 0) := by
  have hne : provisional_steps c ≠ 0 := by omega
  obtain ⟨h1, h2, _⟩ := EXTI1_effect c pin s
  by_cases hc : exti_reset_combo pin s.current_step_dir <;>
    simp_all

/-- C1 witness: a genuine reset at a concrete input (CW, pin high). -/
theorem C1_witness :
    (EXTI1_IRQHandler demoConsts true s_cw_home).steps_from_home = 0 ∧
    (EXTI1_IRQHandler demoConsts true s_cw_home).current_pos_rad = 0 :=
  (C1_amended demoConsts true s_cw_home
      (by rw [provisional_steps_demo]; norm_num)).1.mpr
    (Or.inl ⟨by simp [s_cw_home], rfl⟩)

/-- C2 counterexample: after the wrong-side home-handler update the stored
position 3.14 differs from the closed-form function of the stored step
count by more than 1/10000 — far beyond single-precision float tolerance —
so position_rad is not a pure function of steps_from_home across
home-handler updates. -/
theorem C2_counterexample :
    exti_wrong_side_state.current_pos_rad -
      tilt_pos_of_steps demoConsts exti_wrong_side_state.steps_from_home >
      1 / 10000 := by
  rw [exti_wrong_side_state_eq]
  norm_num [tilt_pos_of_steps, demoConsts]

/-- C2 (amended): after every step the position is exactly the closed-form
function of the step counter, and so it is after every genuine home
crossing; a wrong-side home-handler update instead stores 3.14 rad with
the truncated inverse step count, so there the invariant holds only up to
the truncation error. -/
theorem C2_theorem (c : TiltConsts) (s : TiltState) (line : Bool) (pin : Bool) :
    ((tilt_stepper_motor_step c s line).state.current_pos_rad =
      tilt_pos_of_steps c (tilt_stepper_motor_step c s line).state.steps_from_home) ∧
    (exti_reset_combo pin s.current_step_dir →
      (EXTI1_IRQHandler c pin s).current_pos_rad =
        tilt_pos_of_steps c (EXTI1_IRQHandler c pin s).steps_from_home) ∧
    (¬ exti_reset_combo pin s.current_step_dir →
      (EXTI1_IRQHandler c pin s).current_pos_rad = 3.14 ∧
      (EXTI1_IRQHandler c pin s).steps_from_home = provisional_steps c) := by
  obtain ⟨h1, h2, _⟩ := EXTI1_effect c pin s
  refine ⟨by simp [tilt_stepper_motor_step], fun hc => ?_, fun hc => ?_⟩ <;>
    simp_all [tilt_pos_of_steps_zero]

/-- C2 witness: the invariant at a concrete genuine crossing. -/
theorem C2_witness :
    (EXTI1_IRQHandler demoConsts false s_home0).current_pos_rad =
      tilt_pos_of_steps demoConsts
        (EXTI1_IRQHandler demoConsts false s_home0).steps_from_home :=
  (C2_theorem demoConsts s_home0 false false).2.1
    (Or.inr ⟨by simp [s_home0], rfl⟩)

/-- C4 counterexample: with the counter at the int32 upper bound, a CW
step wraps to the minimum value instead of saturating or adding one. -/
theorem C4_counterexample :
    (tilt_stepper_motor_step demoConsts s_max false).state.steps_from_home = -(2 ^ 31) ∧
    (tilt_stepper_motor_step demoConsts s_max false).state.steps_from_home ≠
      s_max.steps_from_home + 1 ∧
    (tilt_stepper_motor_step demoConsts s_max false).state.steps_from_home ≠
      2 ^ 31 - 1 := by
  simp [tilt_stepper_motor_step, s_max, wrap32]

/-- C4 (amended): one step changes steps_from_home by exactly +1 (CW) or
-1 (CCW) while the counter stays strictly inside the int32 bounds, and
leaves it unchanged when Stopped; there is no saturation — at the bounds
the 32-bit counter wraps around (two's complement). -/
theorem C4_amended (c : TiltConsts) (s : TiltState) (line : Bool) :
    (s.current_step_dir = TILT_STEPPER_DIR_CW →
      (tilt_stepper_motor_step c s line).state.steps_from_home =
        wrap32 (s.steps_from_home + 1) ∧
      (-(2 ^ 31) ≤ s.steps_from_home → s.steps_from_home < 2 ^ 31 - 1 →
        (tilt_stepper_motor_step c s line).state.steps_from_home =
          s.steps_from_home + 1)) ∧
    (s.current_step_dir = TILT_STEPPER_DIR_CCW →
      (tilt_stepper_motor_step c s line).state.steps_from_home =
        wrap32 (s.steps_from_home - 1) ∧
      (-(2 ^ 31) < s.steps_from_home → s.steps_from_home < 2 ^ 31 →
        (tilt_stepper_motor_step c s line).state.steps_from_home =
          s.steps_from_home - 1)) ∧
    (s.current_step_dir = TILT_STEPPER_DIR_STOPPED →
      (tilt_stepper_motor_step c s line).state.steps_from_home =
        s.steps_from_home) := by
  refine ⟨fun h => ⟨?_, fun h1 h2 => ?_⟩, fun h => ⟨?_, fun h1 h2 => ?_⟩, fun h => ?_⟩ <;>
    simp [tilt_stepper_motor_step, h] <;>
    rw [wrap32_eq_of] <;> omega

/-- C4 witness: the exact +1 increment at a concrete in-range CW state. -/
theorem C4_witness :
    (tilt_stepper_motor_step demoConsts s_five false).state.steps_from_home =
      s_five.steps_from_home + 1 :=
  ((C4_amended demoConsts s_five false).1 rfl).2 (by norm_num [s_five]) (by norm_num [s_five])

/-- C9 counterexample: from the reachable state left by a wrong-side home
edge (direction still Stopped), one step call keeps steps_from_home but
rewrites position_rad (it recomputes it from the counter), so the claim
that both stay unchanged is false. -/
theorem C9_counterexample :
    (tilt_stepper_motor_step demoConsts exti_wrong_side_state false).state.steps_from_home =
      exti_wrong_side_state.steps_from_home ∧
    (tilt_stepper_motor_step demoConsts exti_wrong_side_state false).state.current_pos_rad ≠
      exti_wrong_side_state.current_pos_rad := by
  rw [exti_wrong_side_state_eq]
  constructor
  · simp [tilt_stepper_motor_step]
  · simp [tilt_stepper_motor_step]
    norm_num [tilt_pos_of_steps, demoConsts]

/-- C9 (amended): with direction Stopped a step call leaves the step
counter unchanged but recomputes position_rad from it (so the position
only stays unchanged when it already equals the closed form), and it still
calls TMC260_enable and toggles the hardware step line, emitting one
unrecorded pulse. -/
theorem C9_amended (c : TiltConsts) (s : TiltState) (line : Bool)
    (h : s.current_step_dir = TILT_STEPPER_DIR_STOPPED) :
    (tilt_stepper_motor_step c s line).state.steps_from_home = s.steps_from_home ∧
    (tilt_stepper_motor_step c s line).state.current_pos_rad =
      tilt_pos_of_steps c s.steps_from_home ∧
    (tilt_stepper_motor_step c s line).enable_called = true ∧
    (tilt_stepper_motor_step c s line).step_line = !line := by
  simp [tilt_stepper_motor_step, TMC260_step_line, h]

/-- C9 witness: the frame effect at a concrete Stopped state. -/
theorem C9_witness :
    (tilt_stepper_motor_step demoConsts s_home0 false).state.steps_from_home =
      s_home0.steps_from_home ∧
    (tilt_stepper_motor_step demoConsts s_home0 false).state.current_pos_rad =
      tilt_pos_of_steps demoConsts s_home0.steps_from_home ∧
    (tilt_stepper_motor_step demoConsts s_home0 false).enable_called = true ∧
    (tilt_stepper_motor_step demoConsts s_home0 false).step_line = !false :=
  C9_amended demoConsts s_home0 false rfl

/-- C5: on a step-timer tick in TiltSweep (TILT_TABLE) the cursor is
advanced first (uint32 wrap); exactly when the new index is strictly below
the profile length and that entry is nonzero, one step is issued and the
tick period is reprogrammed to the entry; otherwise no step is issued and
the sweep ends by re-entering TILT_TABLE with the tick counter reset (the
profile is consulted only under the bound check, never at or past its
length). -/
theorem C5_theorem (c : TiltConsts) (profile : List ℕ) (s : TiltState) (line : Bool)
    (h : s.ts_state = TILT_STEPPER_TILT_TABLE) :
    (TIM5_IRQHandler c profile s line).state.tilt_index =
      (s.tilt_index + 1) % 2 ^ 32 ∧
    ((s.tilt_index + 1) % 2 ^ 32 < profile.length ∧
        0 < profile.getD ((s.tilt_index + 1) % 2 ^ 32) 0 →
      (TIM5_IRQHandler c profile s line).steps_issued = 1 ∧
      (TIM5_IRQHandler c profile s line).autoreload =
        some (profile.getD ((s.tilt_index + 1) % 2 ^ 32) 0) ∧
      (TIM5_IRQHandler c profile s line).state.ts_state = TILT_STEPPER_TILT_TABLE ∧
      (TIM5_IRQHandler c profile s line).state.ts_state_timer = s.ts_state_timer) ∧
    (¬ ((s.tilt_index + 1) % 2 ^ 32 < profile.length ∧
        0 < profile.getD ((s.tilt_index + 1) % 2 ^ 32) 0) →
      (TIM5_IRQHandler c profile s line).steps_issued = 0 ∧
      (TIM5_IRQHandler c profile s line).autoreload = none ∧
      (TIM5_IRQHandler c profile s line).state.ts_state = TILT_STEPPER_TILT_TABLE ∧
      (TIM5_IRQHandler c profile s line).state.ts_state_timer = 0) := by
  by_cases hidx : (s.tilt_index + 1) % 4294967296 < profile.length
  · have hgd := List.getD_eq_getElem profile 0 hidx
    by_cases hpos : 0 < profile[(s.tilt_index + 1) % 4294967296]
    · simp_all [TIM5_IRQHandler, h, tim5_do_step, tilt_stepper_motor_step]
    · simp_all [TIM5_IRQHandler, h, tim5_do_step, tilt_stepper_motor_state_change]
  · simp [TIM5_IRQHandler, h, hidx, tim5_do_step, tilt_stepper_motor_state_change]

/-- C5 witness: with the cursor at the last entry of the 5-entry profile
[100, 80, 60, 80, 100], the next tick issues no step, reprograms nothing,
and re-enters TILT_TABLE with the tick counter reset — the sweep ends
instead of reading past the array. -/
theorem C5_witness :
    (TIM5_IRQHandler demoConsts [100, 80, 60, 80, 100] s_sweep_end false).steps_issued = 0 ∧
    (TIM5_IRQHandler demoConsts [100, 80, 60, 80, 100] s_sweep_end false).autoreload = none ∧
    (TIM5_IRQHandler demoConsts [100, 80, 60, 80, 100] s_sweep_end false).state.ts_state =
      TILT_STEPPER_TILT_TABLE ∧
    (TIM5_IRQHandler demoConsts [100, 80, 60, 80, 100] s_sweep_end false).state.ts_state_timer =
      0 :=
  (C5_theorem demoConsts [100, 80, 60, 80, 100] s_sweep_end false rfl).2.2 (by decide)

/-- C6: on a state-machine tick in any phase other than HOME and
INITIALIZE, a position above 3.5 or below -0.5 forces the phase to HOME on
that same tick with the tick counter reset to 0. -/
theorem C6_theorem (profile : List ℕ) (pin : Bool) (s : TiltState) (sa : Bool)
    (h1 : s.ts_state ≠ TILT_STEPPER_HOME) (h2 : s.ts_state ≠ TILT_STEPPER_INITIALIZE)
    (h3 : s.current_pos_rad > 3.5 ∨ s.current_pos_rad < -0.5) :
    (TIM1_TRG_COM_TIM11_IRQHandler profile pin s sa).state.ts_state = TILT_STEPPER_HOME ∧
    (TIM1_TRG_COM_TIM11_IRQHandler profile pin s sa).state.ts_state_timer = 0 := by
  rcases h3 with h3 | h3
  · have hn : ¬ s.current_pos_rad < -0.5 := by norm_num; linarith
    simp [TIM1_TRG_COM_TIM11_IRQHandler, h1, h2, h3, hn,
      tilt_stepper_motor_state_change, tim11_mk]
  · by_cases h4 : s.current_pos_rad > 3.5
    · simp [TIM1_TRG_COM_TIM11_IRQHandler, h1, h2, h3, h4,
        tilt_stepper_motor_state_change, tim11_mk]
    · simp [TIM1_TRG_COM_TIM11_IRQHandler, h1, h2, h3, h4,
        tilt_stepper_motor_state_change, tim11_mk]

/-- C6 witness: position 3.6 while in TILT_TABLE forces HOME on the very
next state-machine tick. -/
theorem C6_witness :
    (TIM1_TRG_COM_TIM11_IRQHandler [100, 80, 60, 80, 100] false s_over false).state.ts_state =
      TILT_STEPPER_HOME ∧
    (TIM1_TRG_COM_TIM11_IRQHandler [100, 80, 60, 80, 100] false s_over false).state.ts_state_timer =
      0 :=
  C6_theorem [100, 80, 60, 80, 100] false s_over false
    (by decide) (by decide) (Or.inl (by norm_num [s_over]))

/-- C8: a state-machine tick in INITIALIZE performs driver bring-up and
unconditionally moves the phase to HOME with the tick counter reset; the
following tick, in HOME with the counter at 0 (so it reads 1 inside the
handler), reprograms the step timer to the homing cadence and commands
CCW when steps_from_home is 0 and the raw sensor level is high
(uncovered), CW when it is low (covered); with a nonzero step count the
direction follows the sign of the position estimate instead. -/
theorem C8_theorem (profile : List ℕ) (pin : Bool) (s : TiltState) (sa : Bool) :
    (s.ts_state = TILT_STEPPER_INITIALIZE →
      (TIM1_TRG_COM_TIM11_IRQHandler profile pin s sa).init_called = true ∧
      (TIM1_TRG_COM_TIM11_IRQHandler profile pin s sa).state.ts_state = TILT_STEPPER_HOME ∧
      (TIM1_TRG_COM_TIM11_IRQHandler profile pin s sa).state.ts_state_timer = 0) ∧
    (s.ts_state = TILT_STEPPER_HOME → s.ts_state_timer = 0 →
      (TIM1_TRG_COM_TIM11_IRQHandler profile pin s sa).reload = some Tim5Reload.reload_home ∧
      (s.steps_from_home = 0 →
        (TIM1_TRG_COM_TIM11_IRQHandler profile pin s sa).state.current_step_dir =
          (if pin then TILT_STEPPER_DIR_CCW else TILT_STEPPER_DIR_CW)) ∧
      (s.steps_from_home ≠ 0 →
        (TIM1_TRG_COM_TIM11_IRQHandler profile pin s sa).state.current_step_dir =
          (if s.current_pos_rad > 0 then TILT_STEPPER_DIR_CCW else TILT_STEPPER_DIR_CW))) := by
  constructor
  · intro h
    simp [TIM1_TRG_COM_TIM11_IRQHandler, h, tilt_stepper_motor_state_change, tim11_mk]
  · intro h ht
    by_cases hs : s.steps_from_home = 0 <;> cases pin <;>
      by_cases hp : s.current_pos_rad > 0 <;>
        simp [TIM1_TRG_COM_TIM11_IRQHandler, h, ht, hs, hp, tim11_mk,
          tilt_stepper_motor_set_CW, tilt_stepper_motor_set_CCW]

/-- C8 witness: from the boot state the first tick lands in HOME with
bring-up done, and a first HOME tick with the pin high (uncovered) and a
zero step count commands CCW. -/
theorem C8_witness :
    ((TIM1_TRG_COM_TIM11_IRQHandler [] true s_init0 false).init_called = true ∧
     (TIM1_TRG_COM_TIM11_IRQHandler [] true s_init0 false).state.ts_state =
       TILT_STEPPER_HOME) ∧
    (TIM1_TRG_COM_TIM11_IRQHandler [] true s_home0 false).state.current_step_dir =
      TILT_STEPPER_DIR_CCW := by
  have h1 := (C8_theorem [] true s_init0 false).1 rfl
  have h2 := ((C8_theorem [] true s_home0 false).2 rfl rfl).2.1 rfl
  exact ⟨⟨h1.1, h1.2.1⟩, by simpa using h2⟩

lemma land_lor_mask_outside (x c : ℕ) (hc : c &&& 0x30 = c) :
    ((x &&& 0xFFFFFFCF) ||| c) &&& 0xFFFFFFCF = x &&& 0xFFFFFFCF := by
  apply Nat.eq_of_testBit_eq
  intro i
  have h0 : (0x30 &&& 0xFFFFFFCF : ℕ) = 0 := by decide
  have h30 : ((0x30 : ℕ).testBit i && (0xFFFFFFCF : ℕ).testBit i) = false := by
    rw [← Nat.testBit_land, h0, Nat.zero_testBit]
  have hcbit : c.testBit i = (c.testBit i && (0x30 : ℕ).testBit i) := by
    conv_lhs => rw [← hc]
    rw [Nat.testBit_land]
  rw [Nat.testBit_land, Nat.testBit_lor, Nat.testBit_land, hcbit]
  cases hx : x.testBit i <;> cases hM : (0xFFFFFFCF : ℕ).testBit i <;>
    cases hC : c.testBit i <;> simp_all

lemma rdsel_of_set (x k : ℕ) (hk : k < 4) :
    rdsel_of ((x &&& 0xFFFFFFCF) ||| ((k <<< 4) &&& 0x30)) = k := by
  apply Nat.eq_of_testBit_eq
  intro i
  have hk2 : ∀ j, 2 ≤ j → k.testBit j = false := by
    intro j hj
    apply Nat.testBit_lt_two_pow
    calc k < 4 := hk
      _ = 2 ^ 2 := by norm_num
      _ ≤ 2 ^ j := Nat.pow_le_pow_right (by norm_num) hj
  simp only [rdsel_of, TMC260_DRVCONF_RDSEL_SHIFT, Nat.testBit_land,
    Nat.testBit_shiftRight, Nat.testBit_lor, Nat.testBit_shiftLeft]
  match i with
  | 0 =>
      have e1 : (0xFFFFFFCF : ℕ).testBit (4 + 0) = false := by decide
      have e2 : (0x30 : ℕ).testBit (4 + 0) = true := by decide
      have e3 : (0x3 : ℕ).testBit 0 = true := by decide
      simp [e1, e2, e3]
  | 1 =>
      have e1 : (0xFFFFFFCF : ℕ).testBit (4 + 1) = false := by decide
      have e2 : (0x30 : ℕ).testBit (4 + 1) = true := by decide
      have e3 : (0x3 : ℕ).testBit 1 = true := by decide
      simp [e1, e2, e3]
  | (j + 2) =>
      have e3 : (0x3 : ℕ).testBit (j + 2) = false := by
        apply Nat.testBit_lt_two_pow
        calc (0x3 : ℕ) < 4 := by norm_num
          _ = 2 ^ 2 := by norm_num
          _ ≤ 2 ^ (j + 2) := Nat.pow_le_pow_right (by norm_num) (by omega)
      simp [e3, hk2 (j + 2) (by omega)]

/-- C3 counterexample: TMC260_send_chopconf with tbl = 4 — a value that
exceeds the 2-bit TBL field — does not return InvalidField: it reports
success, issues one SPI transaction, and updates the CHOPCONF shadow. -/
theorem C3_counterexample :
    (TMC260_send_chopconf regs0 4 0 0 0 0 0 0).ret = TMC260_SUCCESS ∧
    (TMC260_send_chopconf regs0 4 0 0 0 0 0 0).sent.length = 1 ∧
    (TMC260_send_chopconf regs0 4 0 0 0 0 0 0).regs.CHOPCONF_regval ≠
      regs0.CHOPCONF_regval := by
  decide

/-- C3 (amended): only the two DRVCTRL packing functions validate their
inputs, and only the 1-bit flags: send_drvctrl_sdon fails with
InvalidField exactly when intpol > 1 or dedge > 1 (mres is not checked),
send_drvctrl_sdoff exactly when ph_a_dir > 1 or ph_b_dir > 1, and on
failure no transaction is issued and no shadow is updated; the CHOPCONF,
SMARTEN, SGCSCONF and DRVCONF functions accept every tuple, mask each
field to its width, and always issue one transaction carrying the value
stored in the shadow. -/
theorem C3_amended (regs : TMC260Regs)
    (intpol dedge mres ph_a_dir ph_a_cur ph_b_dir ph_b_cur : ℕ)
    (tbl chm rndtf hdec hend hstrt toff : ℕ)
    (seimin sedn semax seup semin sfilt sgt cs : ℕ)
    (tst slph slpl diss2g ts2g sdoff vsense rdsel : ℕ) :
    ((TMC260_send_drvctrl_sdon regs intpol dedge mres).ret =
        TMC260_ERROR_INVALID_INPUT ↔ (intpol > 1 ∨ dedge > 1)) ∧
    (intpol > 1 ∨ dedge > 1 →
      (TMC260_send_drvctrl_sdon regs intpol dedge mres).sent = [] ∧
      (TMC260_send_drvctrl_sdon regs intpol dedge mres).regs = regs) ∧
    ((TMC260_send_drvctrl_sdoff regs ph_a_dir ph_a_cur ph_b_dir ph_b_cur).ret =
        TMC260_ERROR_INVALID_INPUT ↔ (ph_a_dir > 1 ∨ ph_b_dir > 1)) ∧
    (ph_a_dir > 1 ∨ ph_b_dir > 1 →
      (TMC260_send_drvctrl_sdoff regs ph_a_dir ph_a_cur ph_b_dir ph_b_cur).sent = [] ∧
      (TMC260_send_drvctrl_sdoff regs ph_a_dir ph_a_cur ph_b_dir ph_b_cur).regs = regs) ∧
    ((TMC260_send_chopconf regs tbl chm rndtf hdec hend hstrt toff).ret = TMC260_SUCCESS ∧
      (TMC260_send_chopconf regs tbl chm rndtf hdec hend hstrt toff).sent =
        [(TMC260_send_chopconf regs tbl chm rndtf hdec hend hstrt toff).regs.CHOPCONF_regval]) ∧
    ((TMC260_send_smarten regs seimin sedn semax seup semin).ret = TMC260_SUCCESS ∧
      (TMC260_send_smarten regs seimin sedn semax seup semin).sent =
        [(TMC260_send_smarten regs seimin sedn semax seup semin).regs.SMARTEN_regval]) ∧
    ((TMC260_send_sgcsconf regs sfilt sgt cs).ret = TMC260_SUCCESS ∧
      (TMC260_send_sgcsconf regs sfilt sgt cs).sent =
        [(TMC260_send_sgcsconf regs sfilt sgt cs).regs.SGCSCONF_regval]) ∧
    ((TMC260_send_drvconf regs tst slph slpl diss2g ts2g sdoff vsense rdsel).ret =
        TMC260_SUCCESS ∧
      (TMC260_send_drvconf regs tst slph slpl diss2g ts2g sdoff vsense rdsel).sent =
        [(TMC260_send_drvconf regs tst slph slpl diss2g ts2g sdoff
            vsense rdsel).regs.DRVCONF_regval]) := by
  refine ⟨?_, fun hv => ?_, ?_, fun hv => ?_, ?_, ?_, ?_, ?_⟩
  · by_cases hv : intpol > 1 ∨ dedge > 1 <;> simp [TMC260_send_drvctrl_sdon, hv]
  · simp [TMC260_send_drvctrl_sdon, hv]
  · by_cases hv : ph_a_dir > 1 ∨ ph_b_dir > 1 <;> simp [TMC260_send_drvctrl_sdoff, hv]
  · simp [TMC260_send_drvctrl_sdoff, hv]
  · simp [TMC260_send_chopconf]
  · simp [TMC260_send_smarten]
  · simp [TMC260_send_sgcsconf]
  · simp [TMC260_send_drvconf]

/-- C3 witness: a rejected DRVCTRL step/dir write (intpol = 2) issues no
transaction and leaves the shadows alone. -/
theorem C3_witness :
    (TMC260_send_drvctrl_sdon regs0 2 0 0).sent = [] ∧
    (TMC260_send_drvctrl_sdon regs0 2 0 0).regs = regs0 :=
  (C3_amended regs0 2 0 0 0 0 0 0 0 0 0 0 0 0 0 0 0 0 0 0 0 0 0 0 0 0 0 0
      0 0 0).2.1 (Or.inl (by norm_num))

lemma land_mask_idem (a m : ℕ) : (a &&& m) &&& m = a &&& m := by
  apply Nat.eq_of_testBit_eq
  intro i
  rw [Nat.testBit_land, Nat.testBit_land]
  cases a.testBit i <;> cases m.testBit i <;> rfl

lemma read_status_drvconf (regs : TMC260Regs) (k : tmc260_status_types) (rb1 rb2 rb3 : ℕ) :
    (TMC260_spi_read_status regs k rb1 rb2 rb3).regs.DRVCONF_regval =
      ((if regs.DRVCONF_regval = 0 then 0xEF000 else regs.DRVCONF_regval) &&& 0xFFFFFFCF) |||
        ((k.toNat <<< 4) &&& 0x30) := by
  have hm : (0xFFFFFFFF ^^^ TMC260_DRVCONF_RDSEL_MASK : ℕ) = 0xFFFFFFCF := by decide
  simp [TMC260_spi_read_status, hm, TMC260_DRVCONF_RDSEL_SHIFT, TMC260_DRVCONF_RDSEL_MASK]

lemma toNat_lt_four (k : tmc260_status_types) : k.toNat < 4 := by
  cases k <;> norm_num [tmc260_status_types.toNat]

lemma read_status_rdsel (regs : TMC260Regs) (k : tmc260_status_types) (rb1 rb2 rb3 : ℕ) :
    rdsel_of (TMC260_spi_read_status regs k rb1 rb2 rb3).regs.DRVCONF_regval = k.toNat := by
  rw [read_status_drvconf]
  exact rdsel_of_set _ _ (toNat_lt_four k)

lemma read_status_drvconf_outside (regs : TMC260Regs) (k : tmc260_status_types)
    (rb1 rb2 rb3 : ℕ) :
    (TMC260_spi_read_status regs k rb1 rb2 rb3).regs.DRVCONF_regval &&& 0xFFFFFFCF =
      (if regs.DRVCONF_regval = 0 then 0xEF000 else regs.DRVCONF_regval) &&& 0xFFFFFFCF := by
  rw [read_status_drvconf]
  exact land_lor_mask_outside _ _ (land_mask_idem _ _)

/-- C7: for every status kind, TMC260_spi_read_status writes the DRVCONF
value — whose RDSEL sub-field now equals the kind — twice in a row (the
first reply is discarded, the second, rb1 rb2 rb3, is captured), and
decodes from the captured reply the eight shared fault bits plus exactly
the kind-specific payload, the other kinds' fields being zero. -/
theorem C7_theorem (regs : TMC260Regs) (kind : tmc260_status_types) (rb1 rb2 rb3 : ℕ) :
    (TMC260_spi_read_status regs kind rb1 rb2 rb3).sent =
      [(TMC260_spi_read_status regs kind rb1 rb2 rb3).regs.DRVCONF_regval,
       (TMC260_spi_read_status regs kind rb1 rb2 rb3).regs.DRVCONF_regval] ∧
    rdsel_of (TMC260_spi_read_status regs kind rb1 rb2 rb3).regs.DRVCONF_regval =
      kind.toNat ∧
    (TMC260_spi_read_status regs kind rb1 rb2 rb3).status.status_type = kind ∧
    ((TMC260_spi_read_status regs kind rb1 rb2 rb3).status.STST =
        (TMC260_assemble_read rb1 rb2 rb3 &&& 0x80) >>> 7 ∧
      (TMC260_spi_read_status regs kind rb1 rb2 rb3).status.OLB =
        (TMC260_assemble_read rb1 rb2 rb3 &&& 0x40) >>> 6 ∧
      (TMC260_spi_read_status regs kind rb1 rb2 rb3).status.OLA =
        (TMC260_assemble_read rb1 rb2 rb3 &&& 0x20) >>> 5 ∧
      (TMC260_spi_read_status regs kind rb1 rb2 rb3).status.S2GB =
        (TMC260_assemble_read rb1 rb2 rb3 &&& 0x10) >>> 4 ∧
      (TMC260_spi_read_status regs kind rb1 rb2 rb3).status.S2GA =
        (TMC260_assemble_read rb1 rb2 rb3 &&& 0x8) >>> 3 ∧
      (TMC260_spi_read_status regs kind rb1 rb2 rb3).status.OTPW =
        (TMC260_assemble_read rb1 rb2 rb3 &&& 0x4) >>> 2 ∧
      (TMC260_spi_read_status regs kind rb1 rb2 rb3).status.OT =
        (TMC260_assemble_read rb1 rb2 rb3 &&& 0x2) >>> 1 ∧
      (TMC260_spi_read_status regs kind rb1 rb2 rb3).status.SG =
        TMC260_assemble_read rb1 rb2 rb3 &&& 0x1) ∧
    (kind = TMC260_STATUS_POSITION →
      (TMC260_spi_read_status regs kind rb1 rb2 rb3).status.position =
        (TMC260_assemble_read rb1 rb2 rb3 &&& 0xFFC00) >>> 10 ∧
      (TMC260_spi_read_status regs kind rb1 rb2 rb3).status.stall_guard = 0 ∧
      (TMC260_spi_read_status regs kind rb1 rb2 rb3).status.current = 0) ∧
    (kind = TMC260_STATUS_STALLGUARD →
      (TMC260_spi_read_status regs kind rb1 rb2 rb3).status.position = 0 ∧
      (TMC260_spi_read_status regs kind rb1 rb2 rb3).status.stall_guard =
        (TMC260_assemble_read rb1 rb2 rb3 &&& 0xFFC00) >>> 10 ∧
      (TMC260_spi_read_status regs kind rb1 rb2 rb3).status.current = 0) ∧
    (kind = TMC260_STATUS_CURRENT →
      (TMC260_spi_read_status regs kind rb1 rb2 rb3).status.position = 0 ∧
      (TMC260_spi_read_status regs kind rb1 rb2 rb3).status.stall_guard =
        (TMC260_assemble_read rb1 rb2 rb3 &&& 0xF8000) >>> 15 ∧
      (TMC260_spi_read_status regs kind rb1 rb2 rb3).status.current =
        (TMC260_assemble_read rb1 rb2 rb3 &&& 0x7C00) >>> 10) := by
  refine ⟨rfl, read_status_rdsel regs kind rb1 rb2 rb3, ?_, ?_, ?_, ?_, ?_⟩ <;>
    cases kind <;>
      simp [TMC260_spi_read_status,
        TMC260_STATUS_STST_MASK, TMC260_STATUS_STST_SHIFT,
        TMC260_STATUS_OLB_MASK, TMC260_STATUS_OLB_SHIFT,
        TMC260_STATUS_OLA_MASK, TMC260_STATUS_OLA_SHIFT,
        TMC260_STATUS_S2GB_MASK, TMC260_STATUS_S2GB_SHIFT,
        TMC260_STATUS_S2GA_MASK, TMC260_STATUS_S2GA_SHIFT,
        TMC260_STATUS_OTPW_MASK, TMC260_STATUS_OTPW_SHIFT,
        TMC260_STATUS_OT_MASK, TMC260_STATUS_OT_SHIFT,
        TMC260_STATUS_SG_MASK, TMC260_STATUS_SG_SHIFT,
        TMC260_STATUS_MSTEP_MASK, TMC260_STATUS_MSTEP_SHIFT,
        TMC260_STATUS_STALLGUARD_MASK, TMC260_STATUS_STALLGUARD_SHIFT,
        TMC260_STATUS_CUR_SG_MASK, TMC260_STATUS_CUR_SG_SHIFT,
        TMC260_STATUS_CUR_SE_MASK, TMC260_STATUS_CUR_SE_SHIFT]

/-- C7 witness: decoding a concrete Position request. -/
theorem C7_witness :
    (TMC260_spi_read_status regs0 TMC260_STATUS_POSITION 171 205 239).status.position =
      (TMC260_assemble_read 171 205 239 &&& 0xFFC00) >>> 10 ∧
    (TMC260_spi_read_status regs0 TMC260_STATUS_POSITION 171 205 239).status.stall_guard = 0 ∧
    (TMC260_spi_read_status regs0 TMC260_STATUS_POSITION 171 205 239).status.current = 0 :=
  (C7_theorem regs0 TMC260_STATUS_POSITION 171 205 239).2.2.2.2.1 rfl

/-- C10: TMC260_spi_read_status leaves the DRVCTRL, CHOPCONF, SMARTEN and
SGCSCONF shadows unchanged and changes the DRVCONF shadow only in its
RDSEL sub-field, which it sets to the requested kind — except that a
DRVCONF shadow that is exactly zero at entry is first replaced by the
default 0xEF000 before the RDSEL update. -/
theorem C10_theorem (regs : TMC260Regs) (kind : tmc260_status_types) (rb1 rb2 rb3 : ℕ) :
    (TMC260_spi_read_status regs kind rb1 rb2 rb3).regs.DRVCTRL_regval =
      regs.DRVCTRL_regval ∧
    (TMC260_spi_read_status regs kind rb1 rb2 rb3).regs.CHOPCONF_regval =
      regs.CHOPCONF_regval ∧
    (TMC260_spi_read_status regs kind rb1 rb2 rb3).regs.SMARTEN_regval =
      regs.SMARTEN_regval ∧
    (TMC260_spi_read_status regs kind rb1 rb2 rb3).regs.SGCSCONF_regval =
      regs.SGCSCONF_regval ∧
    rdsel_of (TMC260_spi_read_status regs kind rb1 rb2 rb3).regs.DRVCONF_regval =
      kind.toNat ∧
    (regs.DRVCONF_regval ≠ 0 →
      (TMC260_spi_read_status regs kind rb1 rb2 rb3).regs.DRVCONF_regval &&& 0xFFFFFFCF =
        regs.DRVCONF_regval &&& 0xFFFFFFCF) ∧
    (regs.DRVCONF_regval = 0 →
      (TMC260_spi_read_status regs kind rb1 rb2 rb3).regs.DRVCONF_regval &&& 0xFFFFFFCF =
        0xEF000) := by
  refine ⟨rfl, rfl, rfl, rfl, read_status_rdsel regs kind rb1 rb2 rb3,
    fun h => ?_, fun h => ?_⟩
  · rw [read_status_drvconf_outside]
    simp [h]
  · rw [read_status_drvconf_outside]
    simp [h]
    decide

/-- C10 witness: a Current request against a nonzero DRVCONF shadow keeps
every bit outside RDSEL. -/
theorem C10_witness :
    (TMC260_spi_read_status regsE TMC260_STATUS_CURRENT 1 2 3).regs.DRVCONF_regval &&&
        0xFFFFFFCF =
      regsE.DRVCONF_regval &&& 0xFFFFFFCF :=
  (C10_theorem regsE TMC260_STATUS_CURRENT 1 2 3).2.2.2.2.2.1 (by decide)
